import Mathlib

/-!
Verification development for the chess-overlay repository.

Shallow embedding of the Python modules overlay/models.py, overlay/dispatcher.py,
overlay/window.py, overlay/config.py and overlay/validator.py, followed by
theorems settling the behavioural claims about construction-time label
validation, dispatcher binding and delivery, the auto-hide timer, and
configuration loading.
-/

namespace ChessOverlay

/-- Python exception values that the embedded code can raise. -/
inductive PyError where
  | valueError (msg : String)
  | attributeError (msg : String)
  | fileNotFoundError
  deriving DecidableEq, Repr

/-! ## overlay/models.py -/

/-- Embeds the list `valid_labels` from `MoveDisplayData.__post_init__`
(src/models.py line 29). -/
def valid_labels : List String :=
  ["brilliant", "best", "excellent", "good", "inaccuracy", "mistake", "blunder", "forced"]

/-- Embeds the dataclass `MoveDisplayData` (src/models.py lines 9-25). -/
structure MoveDisplayData where
  label : String
  best_move : String
  opponent_best_move : Option String
  evaluation : Option Int
  depth : Option Int
  deriving DecidableEq, Repr

/-- Embeds construction of a `MoveDisplayData`, including the `__post_init__`
validation (src/models.py lines 27-31): the value is produced only when
`label` is in `valid_labels`; otherwise a `ValueError` is raised.  The Python
message also appends the list of valid labels; that formatting is elided. -/
def MoveDisplayData.init (label best_move : String) (opponent_best_move : Option String)
    (evaluation : Option Int) (depth : Option Int) : Except PyError MoveDisplayData :=
  if label ∈ valid_labels then
    .ok ⟨label, best_move, opponent_best_move, evaluation, depth⟩
  else
    .error (.valueError ("Invalid label: " ++ label))

/-! ## overlay/dispatcher.py -/

/-- Calling-thread context: whether the caller is running on the Qt
UI-owning (main) thread.  `connect_overlay` in src/dispatcher.py documents
that it must be called from the main thread but its body never inspects the
current thread, so the embedding takes the context as an explicit, unused
parameter. -/
structure ThreadCtx where
  isMainThread : Bool
  deriving DecidableEq, Repr

/-- Embeds the mutable state of `OverlayDispatcher` (src/dispatcher.py
lines 20-24): `connected` is `self._connected`; `slots` counts how many
times `move_received.connect(self._overlay.display_move)` has run, i.e. how
many delivery paths to the singleton overlay exist.  The `self._overlay`
reference and the lock (irrelevant in the single-thread semantics modelled
here) carry no further information. -/
structure OverlayDispatcher where
  connected : Bool
  slots : Nat
  deriving DecidableEq, Repr

/-- The freshly constructed dispatcher (`OverlayDispatcher.__init__`). -/
def dispatcherInit : OverlayDispatcher := { connected := false, slots := 0 }

/-- Observable effects of dispatcher operations: console log lines and
deliveries of a `MoveDisplayData` to the renderer (`display_move` calls
reached through the `move_received` signal). -/
inductive DispatchEvent where
  | log (msg : String)
  | deliver (data : MoveDisplayData)
  deriving DecidableEq, Repr

/-- Embeds `OverlayDispatcher.connect_overlay` (src/dispatcher.py lines
26-37): if already connected it returns at once; otherwise it obtains the
singleton overlay, connects the signal to `display_move` (one more delivery
path), sets `_connected`, and prints a success line.  The body contains no
thread check and no raise, so the result is total and independent of
`ctx`. -/
def connect_overlay (ctx : ThreadCtx) (d : OverlayDispatcher) :
    OverlayDispatcher × List DispatchEvent :=
  if d.connected then (d, [])
  else ({ connected := true, slots := d.slots + 1 },
        [.log "✅ Dispatcher connected to overlay"])

/-- State after calling `connect_overlay` n times in a row. -/
def connectN (ctx : ThreadCtx) : Nat → OverlayDispatcher → OverlayDispatcher
  | 0, d => d
  | n + 1, d => connectN ctx n (connect_overlay ctx d).1

/-- Embeds `OverlayDispatcher.dispatch` (src/dispatcher.py lines 39-58):
under the lock it reads the config (no observable effect), and when not yet
connected prints a warning and returns without emitting; otherwise
`move_received.emit(data)` delivers `data` once per connected slot and a
dispatch line is printed.  The body contains no raising operation. -/
def dispatch (d : OverlayDispatcher) (data : MoveDisplayData) : List DispatchEvent :=
  if ¬ d.connected then
    [.log "⚠️  Dispatcher not connected to overlay yet"]
  else
    List.replicate d.slots (.deliver data) ++
      [.log ("📤 Dispatched: " ++ data.label ++ " | Best: " ++ data.best_move ++
        " | Opp: " ++ (match data.opponent_best_move with | none => "None" | some s => s))]

/-- Sequential `dispatch` calls from one producer, in list order.  The
dispatcher state is not modified by `dispatch`. -/
def dispatchAll (d : OverlayDispatcher) : List MoveDisplayData → List DispatchEvent
  | [] => []
  | u :: rest => dispatch d u ++ dispatchAll d rest

/-- The renderer-visible subsequence of an event list: the data of the
`deliver` events, in order. -/
def delivered (events : List DispatchEvent) : List MoveDisplayData :=
  events.filterMap fun e =>
    match e with
    | .deliver data => some data
    | .log _ => none

/-! ## overlay/window.py: display_move and the auto-hide timer -/

/-- The externally visible steps of `DraggableOverlay.display_move`
(src/window.py lines 188-239), in program order: `hide_timer.stop()`
(line 193), the widget updates rendering the move data (lines 196-232),
`_animate_show` (line 235), and, only when `auto_hide_delay > 0`,
`hide_timer.start(auto_hide_delay)` (lines 238-239). -/
inductive UIAction where
  | stopTimer
  | render (data : MoveDisplayData)
  | animate_show
  | startTimer (ms : Nat)
  deriving DecidableEq, Repr

/-- Embeds `DraggableOverlay.display_move` as its sequence of timer and
rendering actions, in the order the body performs them. -/
def display_move_actions (auto_hide_delay : Nat) (data : MoveDisplayData) : List UIAction :=
  [.stopTimer, .render data, .animate_show] ++
    (if 0 < auto_hide_delay then [.startTimer auto_hide_delay] else [])

/-- Embeds the firing times of `hide_timer`, a `QTimer` started with
`start(interval)` at absolute time `startT`: a Qt timer is repeating by
default, and `DraggableOverlay.__init__` (src/window.py lines 27-28) never
calls `setSingleShot`, so while armed it emits `timeout` at
`startT + interval`, `startT + 2 * interval`, and so on. -/
def timerFiresAt (startT interval t : Nat) : Bool :=
  decide (0 < interval) && decide (startT < t) && decide ((t - startT) % interval = 0)

/-- The most recent element of `times` that is at most `t`, taking the
latest such entry in list order: each `display_move` call stops and (when
the delay is positive) restarts `hide_timer`, so the timer armed at time
`t` is the one started by the last display at or before `t`. -/
def lastLE (times : List Nat) (t : Nat) : Option Nat :=
  times.foldl (fun acc s => if s ≤ t then some s else acc) none

/-- Whether the `timeout` of `hide_timer` (connected to
`DraggableOverlay._auto_hide`, which triggers the hide animation) fires at
absolute time `t`, given the configured `auto_hide_delay` and the times of
the `display_move` calls (in increasing order).  With delay `0` the timer
is never started, so it never fires. -/
def autoHideFires (auto_hide_delay : Nat) (displayTimes : List Nat) (t : Nat) : Bool :=
  match lastLE displayTimes t with
  | none => false
  | some s => timerFiresAt s auto_hide_delay t

/-! ## overlay/config.py -/

/-- Embeds the `"en"` entry of `labels_by_language` in
`OverlayConfig._get_default_labels` (src/config.py lines 65-76). -/
def labels_en : List (String × String) :=
  [("brilliant", "BRILLIANT!!"), ("best", "BEST MOVE"), ("excellent", "EXCELLENT"),
   ("good", "GOOD"), ("inaccuracy", "INACCURACY"), ("mistake", "MISTAKE"),
   ("blunder", "BLUNDER!!"), ("forced", "FORCED"),
   ("engine_suggests", "ENGINE SUGGESTS"), ("opponent_best", "OPPONENT\x27S BEST")]

/-- Embeds the `"vi"` entry of `labels_by_language` (src/config.py lines 77-88). -/
def labels_vi : List (String × String) :=
  [("brilliant", "XUẤT SẮC!!"), ("best", "NƯỚC ĐI TỐT NHẤT"), ("excellent", "RẤT TỐT"),
   ("good", "TỐT"), ("inaccuracy", "KHÔNG CHÍNH XÁC"), ("mistake", "SAI LẦM"),
   ("blunder", "SAI LẦM LỚN!!"), ("forced", "BẮT BUỘC"),
   ("engine_suggests", "ĐỘNG CƠ ĐỀ XUẤT"), ("opponent_best", "ĐỐI THỦ TỐT NHẤT")]

/-- Embeds the `"es"` entry of `labels_by_language` (src/config.py lines 89-100). -/
def labels_es : List (String × String) :=
  [("brilliant", "¡¡BRILLANTE!!"), ("best", "MEJOR JUGADA"), ("excellent", "EXCELENTE"),
   ("good", "BUENA"), ("inaccuracy", "IMPRECISIÓN"), ("mistake", "ERROR"),
   ("blunder", "¡¡GRAVE ERROR!!"), ("forced", "FORZADA"),
   ("engine_suggests", "EL MOTOR SUGIERE"), ("opponent_best", "MEJOR DEL OPONENTE")]

/-- Embeds the `"fr"` entry of `labels_by_language` (src/config.py lines 101-112). -/
def labels_fr : List (String × String) :=
  [("brilliant", "BRILLANT!!"), ("best", "MEILLEUR COUP"), ("excellent", "EXCELLENT"),
   ("good", "BON"), ("inaccuracy", "IMPRÉCISION"), ("mistake", "ERREUR"),
   ("blunder", "GAFFE!!"), ("forced", "FORCÉ"),
   ("engine_suggests", "LE MOTEUR SUGGÈRE"), ("opponent_best", "MEILLEUR DE L\x27ADVERSAIRE")]

/-- Embeds the `"de"` entry of `labels_by_language` (src/config.py lines 113-124). -/
def labels_de : List (String × String) :=
  [("brilliant", "BRILLANT!!"), ("best", "BESTER ZUG"), ("excellent", "AUSGEZEICHNET"),
   ("good", "GUT"), ("inaccuracy", "UNGENAUIGKEIT"), ("mistake", "FEHLER"),
   ("blunder", "GROBER FEHLER!!"), ("forced", "ERZWUNGEN"),
   ("engine_suggests", "ENGINE SCHLÄGT VOR"), ("opponent_best", "GEGNERS BESTE")]

/-- Embeds the `"ru"` entry of `labels_by_language` (src/config.py lines 125-136). -/
def labels_ru : List (String × String) :=
  [("brilliant", "БЛЕСТЯЩЕ!!"), ("best", "ЛУЧШИЙ ХОД"), ("excellent", "ОТЛИЧНО"),
   ("good", "ХОРОШО"), ("inaccuracy", "НЕТОЧНОСТЬ"), ("mistake", "ОШИБКА"),
   ("blunder", "ГРУБАЯ ОШИБКА!!"), ("forced", "ВЫНУЖДЕННЫЙ"),
   ("engine_suggests", "ДВИЖОК ПРЕДЛАГАЕТ"), ("opponent_best", "ЛУЧШИЙ ХОД ПРОТИВНИКА")]

/-- Embeds the `"zh"` entry of `labels_by_language` (src/config.py lines 137-148). -/
def labels_zh : List (String × String) :=
  [("brilliant", "精彩!!"), ("best", "最佳着法"), ("excellent", "优秀"),
   ("good", "良好"), ("inaccuracy", "不精确"), ("mistake", "失误"),
   ("blunder", "大错!!"), ("forced", "被迫"),
   ("engine_suggests", "引擎建议"), ("opponent_best", "对手最佳")]

/-- Embeds `OverlayConfig._get_default_labels` (src/config.py lines 62-151):
look up the language in `labels_by_language`, falling back to the English
table. -/
def get_default_labels (language : String) : List (String × String) :=
  if language = "en" then labels_en
  else if language = "vi" then labels_vi
  else if language = "es" then labels_es
  else if language = "fr" then labels_fr
  else if language = "de" then labels_de
  else if language = "ru" then labels_ru
  else if language = "zh" then labels_zh
  else labels_en

/-- Embeds the dataclass `OverlayConfig` (src/config.py lines 12-51) after
`__post_init__` has run: `labels` and the country lists are always
populated.  Python floats (`opacity`, `animation_speed`) are modelled as
exact rationals; the range checks in `validate` involve only order
comparisons on values representable exactly. -/
structure OverlayConfig where
  icon_size : Int
  font_size : Int
  overlay_width : Int
  overlay_height : Int
  opacity : Rat
  animation_speed : Rat
  position_x : Int
  position_y : Int
  lock_position : Bool
  always_on_top : Bool
  show_best_move : Bool
  show_opponent_best : Bool
  show_evaluation : Bool
  auto_hide_delay : Int
  language : String
  move_notation : String
  labels : List (String × String)
  allowed_countries : List String
  blocked_countries : List String
  show_country_flags : Bool
  theme : String
  blur_background : Bool
  enable_sound : Bool
  deriving DecidableEq, Repr

/-- Embeds `OverlayConfig()` with every field at its dataclass default
(src/config.py lines 17-51) and `__post_init__` applied (lines 53-60). -/
def OverlayConfig.defaults : OverlayConfig :=
  { icon_size := 32, font_size := 16, overlay_width := 400, overlay_height := 250,
    opacity := 95 / 100, animation_speed := 1,
    position_x := 100, position_y := 100, lock_position := false, always_on_top := true,
    show_best_move := true, show_opponent_best := true, show_evaluation := true,
    auto_hide_delay := 5000,
    language := "en", move_notation := "san",
    labels := get_default_labels "en",
    allowed_countries := [], blocked_countries := [],
    show_country_flags := true,
    theme := "dark", blur_background := true, enable_sound := false }

/-- Embeds `OverlayConfig.validate` (src/config.py lines 166-192): the
first failing range or membership check returns `(False, message)`, and a
config passing all checks returns `(True, None)`.  Quote characters in the
Python messages are elided. -/
def OverlayConfig.validate (c : OverlayConfig) : Bool × Option String :=
  if ¬ (16 ≤ c.icon_size ∧ c.icon_size ≤ 64) then
    (false, some "icon_size must be between 16 and 64")
  else if ¬ (10 ≤ c.font_size ∧ c.font_size ≤ 32) then
    (false, some "font_size must be between 10 and 32")
  else if ¬ (300 ≤ c.overlay_width ∧ c.overlay_width ≤ 800) then
    (false, some "overlay_width must be between 300 and 800")
  else if ¬ (200 ≤ c.overlay_height ∧ c.overlay_height ≤ 600) then
    (false, some "overlay_height must be between 200 and 600")
  else if ¬ (0 ≤ c.opacity ∧ c.opacity ≤ 1) then
    (false, some "opacity must be between 0.0 and 1.0")
  else if ¬ (1 / 2 ≤ c.animation_speed ∧ c.animation_speed ≤ 2) then
    (false, some "animation_speed must be between 0.5 and 2.0")
  else if ¬ (c.theme ∈ ["dark", "light", "transparent"]) then
    (false, some "theme must be dark, light, or transparent")
  else if ¬ ( c.move_notation ∈ ["san", "uci"]) then
    (false, some "move_notation must be san or uci")
  else (true, none)

/-- Content of a file as far as `OverlayConfig.load` can observe it: either
a JSON object that `json.load` parses and `OverlayConfig(**data)` accepts
(carrying the resulting config), or any content for which reading, parsing
or construction raises (all caught by the `except Exception` clause). -/
inductive FileContent where
  | configJson (data : OverlayConfig)
  | other
  deriving DecidableEq, Repr

/-- A filesystem: an association list from path to file content.  Earlier
entries shadow later ones. -/
def FS : Type := List (String × FileContent)

/-- Look a path up in the filesystem (`os.path.exists` plus `open`). -/
def lookupFile (fs : FS) (p : String) : Option FileContent :=
  (List.find? (fun e => e.1 == p) fs).map (fun e => e.2)

/-- Embeds `os.path.dirname` for the slash-separated relative paths the
config code uses: everything before the final slash, and the empty string
for a bare filename.  Absolute-path edge cases of `posixpath.dirname` are
outside the inputs exercised here. -/
def dirname (p : String) : String :=
  if p.toList.contains '/' then
    String.mk (((p.toList.reverse.dropWhile (fun c => c != '/')).drop 1).reverse)
  else ""

/-- Embeds `OverlayConfig.save` (src/config.py lines 194-202):
`os.makedirs(os.path.dirname(filepath), exist_ok=True)` raises
`FileNotFoundError` when the dirname is the empty string (a bare filename);
otherwise the directory is created as needed and `asdict(self)` is written
as JSON at `filepath`. -/
def OverlayConfig.save (c : OverlayConfig) (fs : FS) (filepath : String) :
    Except PyError FS :=
  if dirname filepath = "" then .error .fileNotFoundError
  else .ok ((filepath, .configJson c) :: List.filter (fun e => e.1 != filepath) fs)

/-- Embeds `OverlayConfig.load` (src/config.py lines 204-230).  When the
file is missing, a default config is constructed, saved and returned; this
save runs before the `try` block, so an exception it raises propagates out
of `load`.  When the file exists, reading, parsing and construction happen
inside `try`: any failure is caught and a fresh default is returned, and a
parsed config failing `validate` is likewise replaced by a default. -/
def OverlayConfig.load (fs : FS) (filepath : String) :
    Except PyError (OverlayConfig × FS) :=
  match lookupFile fs filepath with
  | none =>
    match OverlayConfig.defaults.save fs filepath with
    | .error e => .error e
    | .ok fs2 => .ok (OverlayConfig.defaults, fs2)
  | some (.configJson data) =>
    if (OverlayConfig.validate data).1 then .ok (data, fs)
    else .ok (OverlayConfig.defaults, fs)
  | some .other => .ok (OverlayConfig.defaults, fs)

/-! ## overlay/validator.py -/

/-- Embeds the module-level attribute `LABEL_ENABLED` of `overlay.config`
as seen by `overlay/validator.py`: src/config.py defines the module-level
names `OverlayConfig`, `CONFIG`, `get_config`, `reload_config` and
`save_config` (plus imports) and assigns no `LABEL_ENABLED` anywhere, so
the attribute is absent and the lookup yields nothing. -/
def config_LABEL_ENABLED : Option (List (String × Bool)) := none

/-- Embeds `is_label_enabled` (src/validator.py lines 5-6):
`config.LABEL_ENABLED.get(label.lower(), False)`.  The attribute access is
evaluated first; when the attribute is absent it raises `AttributeError`
before `.get` or `.lower` run.  Were the mapping present, the result would
be the looked-up boolean with default `False`. -/
def is_label_enabled (label : String) : Except PyError Bool :=
  match config_LABEL_ENABLED with
  | none => .error (.attributeError "module overlay.config has no attribute LABEL_ENABLED")
  | some m =>
    .ok (((List.find? (fun p => p.1 == label.toLower) m).map (fun p => p.2)).getD false)

/-! ## Claim C1: the closed label set accepted at construction -/

/-- Claim C1 counterexample: the claimed closed set contains `theory`, yet
constructing a `MoveDisplayData` with label `theory` raises `ValueError`:
construction does not succeed for every label of the claimed eleven-element
set, because src/models.py validates against an eight-element list. -/
theorem c1_counterexample :
    MoveDisplayData.init "theory" "e4" none none none =
      .error (.valueError "Invalid label: theory") := rfl

/-- Claim C1 (amended): constructing a `MoveDisplayData` succeeds if and
only if the label is in the closed set of `valid_labels` (brilliant, best,
excellent, good, inaccuracy, mistake, blunder, forced); any label outside
that set raises a `ValueError` at construction, before any dispatch. -/
theorem c1_labels_closed_set (label best_move : String) (opp : Option String)
    (ev dp : Option Int) :
    (label ∈ valid_labels →
      MoveDisplayData.init label best_move opp ev dp = .ok ⟨label, best_move, opp, ev, dp⟩) ∧
    (label ∉ valid_labels →
      MoveDisplayData.init label best_move opp ev dp =
        .error (.valueError ("Invalid label: " ++ label))) := by
  constructor <;> intro h <;> simp [MoveDisplayData.init, h]

/-- Claim C1 witness: the amended theorem evaluated at a valid label and at
an invalid one. -/
theorem c1_witness :
    MoveDisplayData.init "best" "e4" none none none =
      .ok ⟨"best", "e4", none, none, none⟩ ∧
    MoveDisplayData.init "theory" "h3" none none none =
      .error (.valueError "Invalid label: theory") :=
  ⟨(c1_labels_closed_set "best" "e4" none none none).1 (by decide),
   (c1_labels_closed_set "theory" "h3" none none none).2 (by decide)⟩

/-! ## Claim C3: binding off the UI thread -/

/-- Claim C3 counterexample: calling `connect_overlay` from a non-main
thread neither raises nor reports an error: it silently succeeds, marking
the dispatcher connected and printing the ordinary success line, exactly as
a main-thread call would. -/
theorem c3_counterexample :
    connect_overlay ⟨false⟩ dispatcherInit =
      ({ connected := true, slots := 1 },
       [.log "✅ Dispatcher connected to overlay"]) := rfl

/-- Claim C3 (amended): `connect_overlay` performs no thread-affinity
check: its result is identical for every calling-thread context, and it
always completes with the dispatcher connected, never raising or reporting
a wrong-thread error.  The main-thread requirement exists only in the
docstring and is unenforced; no `WrongThreadBindError` exists in the
code. -/
theorem c3_no_thread_check (ctx₁ ctx₂ : ThreadCtx) (d : OverlayDispatcher) :
    connect_overlay ctx₁ d = connect_overlay ctx₂ d ∧
    (connect_overlay ctx₁ d).1.connected = true := by
  constructor
  · rfl
  · by_cases h : d.connected <;> simp [connect_overlay, h]

/-! ## Claim C4: dispatch before binding -/

/-- Claim C4: dispatching a valid update before `connect_overlay` has run
produces no delivery to the renderer and exactly the logged warning line;
the embedded `dispatch` is a total function on this path (the Python body
performs no raising operation), so the call never raises. -/
theorem c4_dispatch_before_bind (d : OverlayDispatcher) (data : MoveDisplayData)
    (h : d.connected = false) :
    dispatch d data = [.log "⚠️  Dispatcher not connected to overlay yet"] ∧
    delivered (dispatch d data) = [] := by
  constructor
  · simp [dispatch, h]
  · simp [dispatch, h, delivered]

/-- Claim C4 witness: the theorem evaluated on the freshly constructed
dispatcher and a concrete valid update. -/
theorem c4_witness :
    dispatch dispatcherInit ⟨"best", "e4", none, none, none⟩ =
      [.log "⚠️  Dispatcher not connected to overlay yet"] ∧
    delivered (dispatch dispatcherInit ⟨"best", "e4", none, none, none⟩) = [] :=
  c4_dispatch_before_bind dispatcherInit ⟨"best", "e4", none, none, none⟩ rfl

/-! ## Claim C7: auto_hide_delay = 0 disables auto-hide -/

/-- Claim C7: with `auto_hide_delay = 0`, `display_move` never starts the
hide timer (its action sequence contains no `startTimer`), and the timer
timeout connected to `_auto_hide` never fires at any time for any sequence
of display calls: the overlay is never hidden automatically. -/
theorem c7_zero_delay_never_hides (times : List Nat) (t : Nat) (data : MoveDisplayData) :
    autoHideFires 0 times t = false ∧
    display_move_actions 0 data = [.stopTimer, .render data, .animate_show] := by
  constructor
  · unfold autoHideFires
    cases lastLE times t <;> simp [timerFiresAt]
  · rfl

/-! ## Claim C9: is_label_enabled always raises AttributeError -/

/-- Claim C9: for every input string, `is_label_enabled` raises
`AttributeError`, because `overlay.config` defines no `LABEL_ENABLED`
mapping; the check can never return a boolean in this variant of the
code. -/
theorem c9_label_enabled_attribute_error (label : String) :
    is_label_enabled label =
      .error (.attributeError "module overlay.config has no attribute LABEL_ENABLED") := rfl

/-! ## Helper lemmas about the timer model and the dispatcher -/

/-- With a single display at time 0, the armed timer is always the one
started at 0. -/
lemma lastLE_single (u : Nat) : lastLE [0] u = some 0 := by
  simp [lastLE]

/-- With displays at times 0 and t, the armed timer at time u is the one
started at t once u reaches t, and the one started at 0 before that. -/
lemma lastLE_pair (t u : Nat) : lastLE [0, t] u = if t ≤ u then some t else some 0 := by
  by_cases h : t ≤ u <;> simp [lastLE, h]

/-- Connecting an already connected dispatcher changes nothing and logs
nothing. -/
lemma connect_overlay_of_connected (ctx : ThreadCtx) (d : OverlayDispatcher)
    (h : d.connected = true) : connect_overlay ctx d = (d, []) := by
  simp [connect_overlay, h]

/-- Repeated connect calls on an already connected dispatcher leave it
unchanged. -/
lemma connectN_of_connected (ctx : ThreadCtx) (m : Nat) (d : OverlayDispatcher)
    (h : d.connected = true) : connectN ctx m d = d := by
  induction m with
  | zero => rfl
  | succ k ih =>
    show connectN ctx k (connect_overlay ctx d).1 = d
    have h1 : (connect_overlay ctx d).1 = d := by
      rw [connect_overlay_of_connected ctx d h]
    rw [h1]
    exact ih

/-- After one or more connect calls on a fresh dispatcher, exactly one
delivery path exists. -/
lemma connectN_init (ctx : ThreadCtx) (n : Nat) (hn : 1 ≤ n) :
    connectN ctx n dispatcherInit = { connected := true, slots := 1 } := by
  obtain ⟨m, rfl⟩ : ∃ m, n = m + 1 := ⟨n - 1, by omega⟩
  show connectN ctx m (connect_overlay ctx dispatcherInit).1 =
    { connected := true, slots := 1 }
  have h1 : (connect_overlay ctx dispatcherInit).1 =
      { connected := true, slots := 1 } := rfl
  rw [h1]
  exact connectN_of_connected ctx m _ rfl

/-- Deliveries of a concatenation are the concatenated deliveries. -/
lemma delivered_append (a b : List DispatchEvent) :
    delivered (a ++ b) = delivered a ++ delivered b := by
  simp [delivered, List.filterMap_append]

/-- A bound dispatcher with a single delivery path hands every update list
to the renderer exactly once each, in order. -/
lemma delivered_dispatchAll_one_slot (updates : List MoveDisplayData) :
    delivered (dispatchAll { connected := true, slots := 1 } updates) = updates := by
  induction updates with
  | nil => rfl
  | cons u rest ih =>
    show delivered (dispatch { connected := true, slots := 1 } u ++
      dispatchAll { connected := true, slots := 1 } rest) = u :: rest
    rw [delivered_append, ih]
    have h1 : delivered (dispatch { connected := true, slots := 1 } u) = [u] := rfl
    rw [h1]
    rfl

/-! ## Claim C2: auto-hide after a single update -/

/-- Claim C2 counterexample: with `auto_hide_delay = 5` and a single
`display_move` at time 0, the hide timeout fires at time 5 and fires again
at time 10: `hide_timer` is a default (repeating) QTimer and
`DraggableOverlay.__init__` never calls `setSingleShot`, so the hide is not
triggered exactly once. -/
theorem c2_counterexample :
    autoHideFires 5 [0] 5 = true ∧ autoHideFires 5 [0] 10 = true := by decide

/-- Claim C2 (amended): with `auto_hide_delay = D > 0` and a single
`display_move` at time 0 with no further update, the hide timeout never
fires before D milliseconds, first fires exactly at D, and — the timer
being a repeating one, never stopped after expiry — fires again at every
positive multiple of D. -/
theorem c2_auto_hide_first_fire_repeats (D : Nat) (hD : 0 < D) :
    (∀ t, t < D → autoHideFires D [0] t = false) ∧
    autoHideFires D [0] D = true ∧
    (∀ k, 0 < k → autoHideFires D [0] (k * D) = true) := by
  refine ⟨fun t ht => ?_, ?_, fun k hk => ?_⟩
  · simp only [autoHideFires, lastLE_single, timerFiresAt, Nat.sub_zero]
    rcases Nat.eq_zero_or_pos t with h0 | hpos
    · subst h0; simp
    · simp [Nat.mod_eq_of_lt ht, hpos.ne']
  · simp [autoHideFires, lastLE_single, timerFiresAt, hD, Nat.mod_self]
  · simp [autoHideFires, lastLE_single, timerFiresAt, hD, Nat.mul_mod_left,
      Nat.mul_pos hk hD]

/-- Claim C2 witness: the amended theorem evaluated at D = 5. -/
theorem c2_witness :
    (∀ t, t < 5 → autoHideFires 5 [0] t = false) ∧
    autoHideFires 5 [0] 5 = true ∧
    (∀ k, 0 < k → autoHideFires 5 [0] (k * 5) = true) :=
  c2_auto_hide_first_fire_repeats 5 (by decide)

/-! ## Claim C5: idempotent rebinding -/

/-- Claim C5: binding is idempotent: after any n ≥ 1 calls to
`connect_overlay` on the fresh dispatcher, a dispatch of a valid update
reaches the renderer exactly once — the delivered list is exactly the
one-element list of that update, never two or more. -/
theorem c5_idempotent_rebinding (ctx : ThreadCtx) (n : Nat) (hn : 1 ≤ n)
    (data : MoveDisplayData) :
    delivered (dispatch (connectN ctx n dispatcherInit) data) = [data] := by
  rw [connectN_init ctx n hn]
  rfl

/-- Claim C5 witness: the theorem evaluated after two connect calls. -/
theorem c5_witness :
    delivered (dispatch (connectN ⟨true⟩ 2 dispatcherInit)
      ⟨"blunder", "Rd1", some "Qxf2#", none, none⟩) =
      [⟨"blunder", "Rd1", some "Qxf2#", none, none⟩] :=
  c5_idempotent_rebinding ⟨true⟩ 2 (by decide) ⟨"blunder", "Rd1", some "Qxf2#", none, none⟩

/-! ## Claim C6: debounce on a second update -/

/-- Claim C6: with `auto_hide_delay = D > 0` and display calls at times 0
and t with 0 < t < D: every `display_move` performs stop-timer, then
render, then rearm, in that order; the hide timeout never fires up to and
including time t (no hide between the two updates); it stays silent strictly
between t and t + D; and the rearmed timer fires at t + D. -/
theorem c6_debounce (D t : Nat) (hD : 0 < D) (ht : 0 < t) (htD : t < D) :
    (∀ data, display_move_actions D data =
      [.stopTimer, .render data, .animate_show, .startTimer D]) ∧
    (∀ u, 0 < u → u ≤ t → autoHideFires D [0, t] u = false) ∧
    (∀ u, t < u → u < t + D → autoHideFires D [0, t] u = false) ∧
    autoHideFires D [0, t] (t + D) = true := by
  refine ⟨fun data => ?_, fun u hu hut => ?_, fun u htu hud => ?_, ?_⟩
  · simp [display_move_actions, hD]
  · rcases Nat.eq_or_lt_of_le hut with rfl | hlt
    · simp [autoHideFires, lastLE_pair, timerFiresAt]
    · have hnle : ¬ t ≤ u := by omega
      have huD : u < D := by omega
      simp only [autoHideFires, lastLE_pair, hnle, if_false, timerFiresAt, Nat.sub_zero]
      simp [Nat.mod_eq_of_lt huD, hu.ne']
  · have hle : t ≤ u := Nat.le_of_lt htu
    have hsub : u - t < D := by omega
    have hne : u - t ≠ 0 := by omega
    simp only [autoHideFires, lastLE_pair, hle, if_true, timerFiresAt]
    simp [Nat.mod_eq_of_lt hsub, hne]
  · have hle : t ≤ t + D := Nat.le_add_right t D
    simp only [autoHideFires, lastLE_pair, hle, if_true, timerFiresAt]
    simp [Nat.add_sub_cancel_left, Nat.mod_self, hD]

/-- Claim C6 witness: the theorem evaluated at D = 5 and t = 2. -/
theorem c6_witness :
    (∀ data, display_move_actions 5 data =
      [.stopTimer, .render data, .animate_show, .startTimer 5]) ∧
    (∀ u, 0 < u → u ≤ 2 → autoHideFires 5 [0, 2] u = false) ∧
    (∀ u, 2 < u → u < 2 + 5 → autoHideFires 5 [0, 2] u = false) ∧
    autoHideFires 5 [0, 2] (2 + 5) = true :=
  c6_debounce 5 2 (by decide) (by decide) (by decide)

/-! ## Claim C8: single-producer FIFO delivery -/

/-- Claim C8: for every sequence of dispatch calls issued after binding,
the renderer receives exactly the dispatched updates, once each, in the
same relative order — nothing is coalesced or dropped. -/
theorem c8_fifo_delivery (ctx : ThreadCtx) (updates : List MoveDisplayData) :
    delivered (dispatchAll ((connect_overlay ctx dispatcherInit).1) updates) = updates := by
  have hb : (connect_overlay ctx dispatcherInit).1 =
      { connected := true, slots := 1 } := rfl
  rw [hb]
  exact delivered_dispatchAll_one_slot updates

/-! ## Claim C10: totality of OverlayConfig.load -/

/-- Claim C10 counterexample: loading a missing config file through a bare
filename propagates an exception: the default-config save runs outside the
try block and `os.makedirs` on the empty dirname raises
`FileNotFoundError`, so `load` is not total at its public interface. -/
theorem c10_counterexample :
    OverlayConfig.load [] "config.json" = .error .fileNotFoundError := rfl

/-- Claim C10 (amended): `load` propagates an exception exactly when the
file is missing and saving the freshly created default config fails (the
save runs outside the try block; with the embedded filesystem this happens
precisely when the filepath has an empty directory component).  In every
other case — file present but unreadable, unparsable, rejected by
construction, or failing validate, as well as a missing file whose default
saves successfully — `load` returns an `OverlayConfig` without raising. -/
theorem c10_load_total_unless_default_save_fails (fs : FS) (filepath : String) :
    (∃ e, OverlayConfig.load fs filepath = .error e) ↔
      lookupFile fs filepath = none ∧ dirname filepath = "" := by
  cases h : lookupFile fs filepath with
  | none =>
    by_cases hd : dirname filepath = "" <;>
      simp [OverlayConfig.load, OverlayConfig.save, h, hd]
  | some c =>
    cases c with
    | configJson data =>
      by_cases hv : (OverlayConfig.validate data).1 <;>
        simp [OverlayConfig.load, h, hv]
    | other => simp [OverlayConfig.load, h]

end ChessOverlay
